import Mathlib

/-!
Verification of the BreatheAware inference-and-fusion layer (flask_app.py).

The file shallowly embeds the program: the category catalog `AQI_INFO`, the
midpoint table `get_aqi_value_from_class`, the direct-prediction route
`predict_aqi` (the /predict handler), the live route `get_live_aqi`
(the /live-aqi handler) and the helper `predict_aqi_internal`.

Modelling conventions:
- Python floats are modelled as rationals; Python `round(x, n)` is
  round-half-to-even at `n` decimal digits (`pyRound`).
- A JSON/dict value reaching `float(...)` is modelled by `PyVal`: either a
  numeric value (a number or numeric string, carrying its value) or a
  non-coercible value carrying the message of the `ValueError` that
  `float(...)` raises on it.
- The trained classifier and the label encoder are loaded scikit-learn
  artifacts (not part of the source tree); they are modelled as an abstract
  structure acting on the single feature row.  `np.array([pollutants])` is
  the 2-D single-row batch the artifact accepts; the second wrapping
  `[features]` in the confidence expressions at lines 129 and 219 passes a
  3-D input, which scikit-learn input validation rejects with a ValueError
  regardless of the trained model, modelled by `predict_proba_wrapped`.
- Messages of internal Python exceptions (KeyError, AttributeError on None,
  max of an empty sequence) are modelled by fixed strings; Python quote
  characters inside those messages are elided, which no claim depends on.
- `datetime.now().isoformat()` is an input parameter `now` of each handler.
- HTTP responses are constructors carrying the body and the status code.
-/

namespace BreatheAware

/-- Round-half-to-even of a rational to an integer, the tie-breaking rule of
Python 3 `round`. -/
def roundHalfEven (y : ℚ) : ℤ :=
  if y - (Int.floor y : ℚ) < 1/2 then Int.floor y
  else if 1/2 < y - (Int.floor y : ℚ) then Int.floor y + 1
  else if Int.floor y % 2 = 0 then Int.floor y else Int.floor y + 1

/-- Python `round(x, n)`: round-half-to-even at `n` decimal digits. -/
def pyRound (x : ℚ) (n : ℕ) : ℚ := (roundHalfEven (x * 10 ^ n) : ℚ) / 10 ^ n

/-- A Python value handed to `float(...)`: either float-coercible with its
numeric value, or non-coercible with the message of the raised ValueError. -/
inductive PyVal where
  | num (q : ℚ)
  | nonNumeric (errMsg : String)
deriving DecidableEq

/-- Presentation metadata record of one AQI category (one entry of
`AQI_INFO`). -/
structure AQIMeta where
  emoji : String
  color : String
  range : String
  health_tip : String
deriving DecidableEq

/-- The `Moderate` entry of `AQI_INFO`. -/
def moderateInfo : AQIMeta :=
  { emoji := "🟡"
    color := "#FFFF00"
    range := "51-100"
    health_tip := "Air quality is acceptable. Sensitive individuals should consider limiting prolonged outdoor exertion. 🚶‍♂️" }

/-- AQI class mappings with emojis and colors (`AQI_INFO` in flask_app.py). -/
def AQI_INFO : List (String × AQIMeta) :=
  [("Good",
    { emoji := "🟢"
      color := "#00E400"
      range := "0-50"
      health_tip := "Air quality is excellent! Perfect for outdoor activities and exercise. 🏃‍♀️" }),
   ("Moderate", moderateInfo),
   ("Unhealthy for Sensitive Groups",
    { emoji := "🟠"
      color := "#FF7E00"
      range := "101-150"
      health_tip := "Sensitive groups should reduce outdoor activities. Children and elderly should stay indoors. 🏠" }),
   ("Unhealthy",
    { emoji := "🔴"
      color := "#FF0000"
      range := "151-200"
      health_tip := "Everyone should limit outdoor activities. Wear masks when going outside. 😷" }),
   ("Very Unhealthy",
    { emoji := "🟣"
      color := "#8F3F97"
      range := "201-300"
      health_tip := "Health alert! Avoid outdoor activities. Keep windows closed and use air purifiers. ⚠️" }),
   ("Hazardous",
    { emoji := "🟤"
      color := "#7E0023"
      range := "301+"
      health_tip := "Emergency conditions! Stay indoors at all times. Seek medical attention if needed. 🚨" })]

/-- The closed set of the six category labels, in catalog order. -/
def aqiLabels : List String :=
  ["Good", "Moderate", "Unhealthy for Sensitive Groups", "Unhealthy",
   "Very Unhealthy", "Hazardous"]

/-- Catalog lookup with the Moderate fallback:
`AQI_INFO.get(aqi_class, AQI_INFO[Moderate])` in flask_app.py. -/
def aqiInfoGet (aqi_class : String) : AQIMeta :=
  (AQI_INFO.lookup aqi_class).getD moderateInfo

/-- Convert AQI class to approximate numerical value using midpoint
(`get_aqi_value_from_class` in flask_app.py); `midpoints.get(aqi_class, 100)`. -/
def get_aqi_value_from_class (aqi_class : String) : ℤ :=
  (([("Good", (25 : ℤ)),
     ("Moderate", 75),
     ("Unhealthy for Sensitive Groups", 125),
     ("Unhealthy", 175),
     ("Very Unhealthy", 250),
     ("Hazardous", 350)] : List (String × ℤ)).lookup aqi_class).getD 100

/-- The loaded classifier artifact, acting on the single feature row:
`predict` yields the label index of the row, `predict_proba` its per-class
probability vector. -/
structure MLModel where
  predict : List ℚ → ℕ
  predict_proba : List ℚ → List ℚ

/-- The loaded label-encoder artifact: `inverse_transform` decodes a label
index to the category label string. -/
structure LabelEncoder where
  inverse_transform : ℕ → String

/-- Python `max` on a list: `none` models the TypeError raised on an empty
sequence. -/
def maxQ : List ℚ → Option ℚ
  | [] => none
  | x :: xs => some (xs.foldl max x)

/-- Message of `max` on an empty sequence. -/
def maxEmptyMsg : String := "max() arg is an empty sequence"

/-- Message of the AttributeError raised by `model.predict` when the model
artifact is None (quote characters of the Python message elided). -/
def noneAttrPredict : String := "NoneType object has no attribute predict"

/-- Message of the AttributeError raised by
`label_encoder.inverse_transform` when the encoder artifact is None. -/
def noneAttrInverse : String := "NoneType object has no attribute inverse_transform"

/-- Message of the KeyError raised by `data[k]` when key `k` is absent
(Python renders the quoted key). -/
def keyErrorMsg (k : String) : String := k

/-- Message of the ValueError scikit-learn input validation raises on a
3-D input (the exact wording varies slightly across sklearn versions). -/
def dim3Msg : String := "Found array with dim 3. Estimator expected <= 2."

/-- The call `model.predict_proba([features])` at lines 129 and 219:
`features` is already the 2-D single-row batch `np.array([pollutants])`,
so this call passes a 3-D, shape (1,1,6) input, which the scikit-learn
artifact rejects with a ValueError (`check_array` with `allow_nd=False`)
before any prediction, for every model and every row. -/
def predict_proba_wrapped (_model : MLModel) (_pollutants : List ℚ) :
    Except String (List ℚ) :=
  .error dim3Msg

/-- The `required_fields` list of `predict_aqi`, in source order. -/
def required_fields : List String := ["pm25", "pm10", "no2", "so2", "co", "o3"]

/-- The first required field missing from `data`, following the validation
loop of `predict_aqi` (fields are checked in `required_fields` order). -/
def findMissing (data : List (String × PyVal)) : Option String :=
  required_fields.find? (fun f => (data.lookup f).isNone)

/-- One step `float(data[k])`: KeyError when `k` is absent, the coercion
error when the value is not numeric, else the numeric value. -/
def coerce1 (data : List (String × PyVal)) (k : String) : Except String ℚ :=
  match data.lookup k with
  | none => .error (keyErrorMsg k)
  | some (.num q) => .ok q
  | some (.nonNumeric msg) => .error msg

/-- The pollutant-extraction block
`[float(data[pm25]), ..., float(data[o3])]`: the six coercions in source
order, stopping at the first raised exception. -/
def coercePollutants (data : List (String × PyVal)) : Except String (List ℚ) :=
  match coerce1 data "pm25" with
  | .error msg => .error msg
  | .ok v1 =>
  match coerce1 data "pm10" with
  | .error msg => .error msg
  | .ok v2 =>
  match coerce1 data "no2" with
  | .error msg => .error msg
  | .ok v3 =>
  match coerce1 data "so2" with
  | .error msg => .error msg
  | .ok v4 =>
  match coerce1 data "co" with
  | .error msg => .error msg
  | .ok v5 =>
  match coerce1 data "o3" with
  | .error msg => .error msg
  | .ok v6 => .ok [v1, v2, v3, v4, v5, v6]

/-- The JSON body returned on success by `predict_aqi` and
`predict_aqi_internal`. -/
structure PredictResponse where
  success : Bool
  aqi_class : String
  aqi_value : ℤ
  confidence : ℚ
  emoji : String
  color : String
  range : String
  health_tip : String
  pollutants : List (String × ℚ)
  timestamp : String
deriving DecidableEq

/-- Result of the /predict route: a 200 JSON body, or an error body with its
HTTP status code. -/
inductive PredictResult where
  | ok (resp : PredictResponse)
  | err (msg : String) (status : ℕ)
deriving DecidableEq

/-- Builds the success body shared by `predict_aqi` and
`predict_aqi_internal` (the dict literal in the source). -/
def mkResponse (aqi_class : String) (mx : ℚ) (pollutants : List ℚ)
    (now : String) : PredictResponse :=
  let confidence := pyRound (mx * 100) 1
  let aqi_value := get_aqi_value_from_class aqi_class
  let aqi_info := aqiInfoGet aqi_class
  { success := true
    aqi_class := aqi_class
    aqi_value := aqi_value
    confidence := pyRound confidence 2
    emoji := aqi_info.emoji
    color := aqi_info.color
    range := aqi_info.range
    health_tip := aqi_info.health_tip
    pollutants := [("pm25", pollutants.getD 0 0),
                   ("pm10", pollutants.getD 1 0),
                   ("no2", pollutants.getD 2 0),
                   ("so2", pollutants.getD 3 0),
                   ("co", pollutants.getD 4 0),
                   ("o3", pollutants.getD 5 0)]
    timestamp := now }

/-- The /predict handler `predict_aqi`.  The three-artifact truthiness guard
`if not model or not label_encoder or not feature_names` treats a missing
artifact (None) and an empty feature-name list as falsy.  Validation,
coercion, prediction and response construction follow the source order; any
exception escaping to the outer handler becomes a 500
`Prediction failed:` response.  The confidence expression at line 129
re-wraps the feature batch (`predict_proba_wrapped`), so it raises for
every input that reaches it. -/
def predict_aqi (model? : Option MLModel) (encoder? : Option LabelEncoder)
    (featureNames? : Option (List String)) (now : String)
    (data : List (String × PyVal)) : PredictResult :=
  match model?, encoder?, featureNames? with
  | some model, some enc, some fns =>
    if fns.isEmpty then .err "ML models not loaded properly" 500
    else
      match findMissing data with
      | some fld => .err ("Missing required field: " ++ fld) 400
      | none =>
        match coercePollutants data with
        | .error msg => .err ("Prediction failed: " ++ msg) 500
        | .ok pollutants =>
          let prediction := model.predict pollutants
          let aqi_class := enc.inverse_transform prediction
          match predict_proba_wrapped model pollutants with
          | .error msg => .err ("Prediction failed: " ++ msg) 500
          | .ok probs =>
            match maxQ probs with
            | none => .err ("Prediction failed: " ++ maxEmptyMsg) 500
            | some mx => .ok (mkResponse aqi_class mx pollutants now)
  | _, _, _ => .err "ML models not loaded properly" 500

/-- Result of `predict_aqi_internal`: the success dict, or the
`\x7b error: ... \x7d` dict it returns when its try block raises. -/
inductive InternalResult where
  | ok (resp : PredictResponse)
  | errDict (msg : String)
deriving DecidableEq

/-- The helper `predict_aqi_internal`.  No artifact guard and no
missing-field validation: exceptions (KeyError, coercion ValueError,
AttributeError on a None artifact, the 3-D ValueError of the re-wrapped
`predict_proba` call at line 219, max on empty) are caught and returned as
an error dict `Internal prediction failed: ...`. -/
def predict_aqi_internal (model? : Option MLModel)
    (encoder? : Option LabelEncoder) (now : String)
    (data : List (String × PyVal)) : InternalResult :=
  match coercePollutants data with
  | .error msg => .errDict ("Internal prediction failed: " ++ msg)
  | .ok pollutants =>
    match model? with
    | none => .errDict ("Internal prediction failed: " ++ noneAttrPredict)
    | some model =>
      match encoder? with
      | none => .errDict ("Internal prediction failed: " ++ noneAttrInverse)
      | some enc =>
        let prediction := model.predict pollutants
        let aqi_class := enc.inverse_transform prediction
        match predict_proba_wrapped model pollutants with
        | .error msg => .errDict ("Internal prediction failed: " ++ msg)
        | .ok probs =>
          match maxQ probs with
          | none =>
            .errDict ("Internal prediction failed: " ++ maxEmptyMsg)
          | some mx => .ok (mkResponse aqi_class mx pollutants now)

/-- The provider response consumed by `get_live_aqi`: its HTTP status code
and, when the body parses with the expected structure, the
`list[0].components` mapping of pollutant components. -/
structure ProviderResponse where
  status_code : ℕ
  body : Option (List (String × ℚ))
deriving DecidableEq

/-- Message of the exception raised while extracting
`air_data[list][0][components]` from a malformed provider body. -/
def parseErrMsg : String := "list"

/-- Result of the /live-aqi route: a merged 200 response (the
`predict_aqi_internal` dict with the raw provider `components` added), or an
error body with its status code. -/
inductive LiveResult where
  | merged (pred : InternalResult) (components : List (String × ℚ))
  | err (msg : String) (status : ℕ)
deriving DecidableEq

/-- HTTP status code of a /live-aqi result (`jsonify` of the merged dict
responds with 200). -/
def liveStatus : LiveResult → ℕ
  | .merged _ _ => 200
  | .err _ s => s

/-- Truthiness of the `api_key` string from the environment: None and the
empty string are falsy. -/
def apiKeyFalsy : Option String → Bool
  | none => true
  | some s => s.isEmpty

/-- The provider-to-canonical field mapping of `get_live_aqi`
(`prediction_data`): `pm2_5` maps to `pm25`, the other five map 1:1 by
name, and `pollutants.get(k, 0)` defaults a missing provider field to 0. -/
def buildPredictionData (pollutants : List (String × ℚ)) :
    List (String × PyVal) :=
  [("pm25", .num ((pollutants.lookup "pm2_5").getD 0)),
   ("pm10", .num ((pollutants.lookup "pm10").getD 0)),
   ("no2", .num ((pollutants.lookup "no2").getD 0)),
   ("so2", .num ((pollutants.lookup "so2").getD 0)),
   ("co", .num ((pollutants.lookup "co").getD 0)),
   ("o3", .num ((pollutants.lookup "o3").getD 0))]

/-- The /live-aqi handler `get_live_aqi`: API-key guard, upstream status
check, body parse, field mapping, delegation to `predict_aqi_internal`, and
merge of the raw provider components into the response dict. -/
def get_live_aqi (apiKey : Option String) (model? : Option MLModel)
    (encoder? : Option LabelEncoder) (now : String)
    (response : ProviderResponse) : LiveResult :=
  if apiKeyFalsy apiKey then .err "OpenWeatherMap API key missing" 500
  else if response.status_code ≠ 200 then .err "Failed to fetch live data" 500
  else
    match response.body with
    | none => .err ("Live AQI fetch failed: " ++ parseErrMsg) 500
    | some pollutants =>
      .merged (predict_aqi_internal model? encoder? now
                 (buildPredictionData pollutants)) pollutants

/-- The artifact truthiness guard of `predict_aqi`
(`if not model or not label_encoder or not feature_names`): true when an
artifact is None or when the feature-name list is empty (Python list
truthiness). -/
def modelsUnavailable : Option MLModel → Option LabelEncoder →
    Option (List String) → Bool
  | some _, some _, some fns => fns.isEmpty
  | _, _, _ => true

/-- Erases the timestamp field of a /predict result, the only response
field derived from the wall clock. -/
def eraseTs : PredictResult → PredictResult
  | .ok r => .ok { r with timestamp := "" }
  | .err m s => .err m s

/-- A concrete stand-in for the loaded classifier artifact, used to
instantiate theorems at closed inputs: class index 1, probability vector
(3/10, 7/10). -/
def demoModel : MLModel :=
  { predict := fun _ => 1
    predict_proba := fun _ => [3/10, 7/10] }

/-- A concrete stand-in for the loaded label-encoder artifact: decodes
index 1 to Moderate and every other index to Good. -/
def demoEncoder : LabelEncoder :=
  { inverse_transform := fun i => if i = 1 then "Moderate" else "Good" }

/-- A concrete stand-in for the loaded feature-name artifact. -/
def demoFeatureNames : List String :=
  ["pm25", "pm10", "no2", "so2", "co", "o3"]

/-! ### Arithmetic lemmas about the rounding and max helpers -/

theorem roundHalfEven_intCast (n : ℤ) : roundHalfEven (n : ℚ) = n := by
  unfold roundHalfEven
  norm_num

theorem pyRound_two_of_tenths (m : ℤ) :
    pyRound ((m : ℚ) / 10) 2 = (m : ℚ) / 10 := by
  unfold pyRound
  have h : ((m : ℚ) / 10) * 10 ^ 2 = ((10 * m : ℤ) : ℚ) := by
    push_cast
    ring
  rw [h, roundHalfEven_intCast]
  push_cast
  ring

theorem pyRound_one_eq_tenths (x : ℚ) :
    pyRound x 1 = ((roundHalfEven (x * 10) : ℤ) : ℚ) / 10 := by
  unfold pyRound
  norm_num

theorem pyRound_two_pyRound_one (x : ℚ) :
    pyRound (pyRound x 1) 2 = pyRound x 1 := by
  rw [pyRound_one_eq_tenths]
  exact pyRound_two_of_tenths _

theorem roundHalfEven_nonneg (y : ℚ) (h : 0 ≤ y) : 0 ≤ roundHalfEven y := by
  have hf : (0 : ℤ) ≤ Int.floor y := Int.floor_nonneg.mpr h
  unfold roundHalfEven
  split
  · exact hf
  split
  · omega
  split
  · exact hf
  · omega

theorem roundHalfEven_le (y : ℚ) (N : ℤ) (h : y ≤ (N : ℚ)) :
    roundHalfEven y ≤ N := by
  have hfl : ((Int.floor y : ℤ) : ℚ) ≤ y := Int.floor_le y
  have hfloor : Int.floor y ≤ N := by
    have : ((Int.floor y : ℤ) : ℚ) ≤ (N : ℚ) := le_trans hfl h
    exact_mod_cast this
  unfold roundHalfEven
  split
  · exact hfloor
  · have hge : (1 : ℚ) / 2 ≤ y - (Int.floor y : ℚ) := by
      rename_i hc
      push_neg at hc
      exact hc
    have hlt : Int.floor y < N := by
      have h1 : ((Int.floor y : ℤ) : ℚ) + 1 / 2 ≤ (N : ℚ) := by linarith
      have h2 : ((Int.floor y : ℤ) : ℚ) < (N : ℚ) := by linarith
      exact_mod_cast h2
    split
    · omega
    split
    · exact hfloor
    · omega

theorem pyRound_one_nonneg (x : ℚ) (h : 0 ≤ x) : 0 ≤ pyRound x 1 := by
  rw [pyRound_one_eq_tenths]
  have h10 : 0 ≤ x * 10 := by linarith
  have := roundHalfEven_nonneg (x * 10) h10
  positivity

theorem pyRound_one_le_100 (x : ℚ) (h : x ≤ 100) : pyRound x 1 ≤ 100 := by
  rw [pyRound_one_eq_tenths]
  have h10 : x * 10 ≤ ((1000 : ℤ) : ℚ) := by push_cast; linarith
  have hle : roundHalfEven (x * 10) ≤ 1000 := roundHalfEven_le (x * 10) 1000 h10
  have hle' : ((roundHalfEven (x * 10) : ℤ) : ℚ) ≤ 1000 := by exact_mod_cast hle
  linarith

theorem foldl_max_mem (xs : List ℚ) (a : ℚ) : xs.foldl max a ∈ a :: xs := by
  induction xs generalizing a with
  | nil => simp
  | cons b bs ih =>
    rcases List.mem_cons.mp (ih (max a b)) with h | h
    · rw [List.foldl_cons, h]
      rcases max_choice a b with hm | hm <;> rw [hm] <;> simp
    · rw [List.foldl_cons]
      exact List.mem_cons_of_mem _ (List.mem_cons_of_mem _ h)

theorem maxQ_mem (l : List ℚ) (mx : ℚ) (h : maxQ l = some mx) : mx ∈ l := by
  cases l with
  | nil => simp [maxQ] at h
  | cons x xs =>
    simp only [maxQ, Option.some.injEq] at h
    rw [← h]
    exact foldl_max_mem xs x

/-! ### Claim theorems -/

/-- C5: Category Catalog lookup is a total, pure function over label
strings: each of the six known labels returns its own non-empty metadata
record (emoji, color, range, health_tip); any label outside the closed
six-label set returns the Moderate metadata rather than failing; repeated
lookups of the same label return identical metadata (the lookup is a pure
function, so the two lookups are the same term). -/
theorem catalog_lookup_total :
    (∀ l ∈ aqiLabels, AQI_INFO.lookup l = some (aqiInfoGet l) ∧
       (aqiInfoGet l).emoji ≠ "" ∧ (aqiInfoGet l).color ≠ "" ∧
       (aqiInfoGet l).range ≠ "" ∧ (aqiInfoGet l).health_tip ≠ "") ∧
    (∀ l : String, l ∉ aqiLabels → aqiInfoGet l = moderateInfo) ∧
    (∀ l : String, aqiInfoGet l = aqiInfoGet l) := by
  refine ⟨by decide, ?_, fun l => rfl⟩
  intro l hl
  simp only [aqiLabels, List.mem_cons, List.not_mem_nil, or_false,
    not_or] at hl
  obtain ⟨h1, h2, h3, h4, h5, h6⟩ := hl
  have b1 : (l == "Good") = false := beq_eq_false_iff_ne.mpr h1
  have b2 : (l == "Moderate") = false := beq_eq_false_iff_ne.mpr h2
  have b3 : (l == "Unhealthy for Sensitive Groups") = false :=
    beq_eq_false_iff_ne.mpr h3
  have b4 : (l == "Unhealthy") = false := beq_eq_false_iff_ne.mpr h4
  have b5 : (l == "Very Unhealthy") = false := beq_eq_false_iff_ne.mpr h5
  have b6 : (l == "Hazardous") = false := beq_eq_false_iff_ne.mpr h6
  simp [aqiInfoGet, AQI_INFO, List.lookup, b1, b2, b3, b4, b5, b6]

/-- Witness for C5 at concrete labels: the known label Good yields its own
catalog entry, and the unknown label bogus falls back to the Moderate
metadata. -/
theorem catalog_lookup_total_witness :
    AQI_INFO.lookup "Good" = some (aqiInfoGet "Good") ∧
    aqiInfoGet "bogus" = moderateInfo :=
  ⟨(catalog_lookup_total.1 "Good" (by decide)).1,
   catalog_lookup_total.2.1 "bogus" (by decide)⟩

/-- C6: the numeric midpoint mapping is deterministic and pure: Good maps
to 25, Moderate to 75, Unhealthy for Sensitive Groups to 125, Unhealthy to
175, Very Unhealthy to 250, Hazardous to 350, and any label outside the
six-label set to 100. -/
theorem midpoint_mapping :
    get_aqi_value_from_class "Good" = 25 ∧
    get_aqi_value_from_class "Moderate" = 75 ∧
    get_aqi_value_from_class "Unhealthy for Sensitive Groups" = 125 ∧
    get_aqi_value_from_class "Unhealthy" = 175 ∧
    get_aqi_value_from_class "Very Unhealthy" = 250 ∧
    get_aqi_value_from_class "Hazardous" = 350 ∧
    ∀ l : String, l ∉ aqiLabels → get_aqi_value_from_class l = 100 := by
  refine ⟨by decide, by decide, by decide, by decide, by decide, by decide,
    ?_⟩
  intro l hl
  simp only [aqiLabels, List.mem_cons, List.not_mem_nil, or_false,
    not_or] at hl
  obtain ⟨h1, h2, h3, h4, h5, h6⟩ := hl
  have b1 : (l == "Good") = false := beq_eq_false_iff_ne.mpr h1
  have b2 : (l == "Moderate") = false := beq_eq_false_iff_ne.mpr h2
  have b3 : (l == "Unhealthy for Sensitive Groups") = false :=
    beq_eq_false_iff_ne.mpr h3
  have b4 : (l == "Unhealthy") = false := beq_eq_false_iff_ne.mpr h4
  have b5 : (l == "Very Unhealthy") = false := beq_eq_false_iff_ne.mpr h5
  have b6 : (l == "Hazardous") = false := beq_eq_false_iff_ne.mpr h6
  simp [get_aqi_value_from_class, List.lookup, b1, b2, b3, b4, b5, b6]

/-- Witness for C6 at a concrete unknown label: it maps to 100. -/
theorem midpoint_mapping_witness :
    get_aqi_value_from_class "some-unknown-label" = 100 :=
  midpoint_mapping.2.2.2.2.2.2 "some-unknown-label" (by decide)

theorem findMissing_eq_some (data : List (String × PyVal)) (fld : String)
    (h : findMissing data = some fld) :
    data.lookup fld = none ∧ fld ∈ required_fields := by
  unfold findMissing at h
  constructor
  · simpa using List.find?_some h
  · exact List.mem_of_find?_eq_some h

theorem coercePollutants_build (comps : List (String × ℚ)) :
    coercePollutants (buildPredictionData comps) =
      .ok [(comps.lookup "pm2_5").getD 0, (comps.lookup "pm10").getD 0,
           (comps.lookup "no2").getD 0, (comps.lookup "so2").getD 0,
           (comps.lookup "co").getD 0, (comps.lookup "o3").getD 0] := rfl

/-- C2: for every input object missing at least one of the six required
keys, `predict_aqi` fails with HTTP 400 naming the first missing field (in
`required_fields` order), that field is indeed absent from the input, and
the check happens before any numeric coercion: the theorem holds for
arbitrary `PyVal` values of the present fields, coercible or not. -/
theorem missing_field_validation (m : MLModel) (e : LabelEncoder)
    (fns : List String) (now : String) (data : List (String × PyVal))
    (fld : String) (hfns : fns.isEmpty = false)
    (h : findMissing data = some fld) :
    predict_aqi (some m) (some e) (some fns) now data =
      .err ("Missing required field: " ++ fld) 400 ∧
    data.lookup fld = none ∧ fld ∈ required_fields := by
  refine ⟨?_, findMissing_eq_some data fld h⟩
  simp [predict_aqi, hfns, h]

/-- Witness for C2: an input lacking the no2 key (and whose pm25 value is
not even coercible) is rejected with 400 naming no2, showing the missing
check precedes coercion. -/
theorem missing_field_validation_witness :
    predict_aqi (some demoModel) (some demoEncoder) (some demoFeatureNames)
      "2025-01-01T00:00:00"
      [("pm25", .nonNumeric "could not convert string to float: abc"),
       ("pm10", .num 1), ("so2", .num 1), ("co", .num 1), ("o3", .num 1)] =
      .err ("Missing required field: " ++ "no2") 400 ∧
    ([("pm25", PyVal.nonNumeric "could not convert string to float: abc"),
      ("pm10", .num 1), ("so2", .num 1), ("co", .num 1),
      ("o3", .num 1)].lookup "no2" = none) ∧
    "no2" ∈ required_fields :=
  missing_field_validation demoModel demoEncoder demoFeatureNames
    "2025-01-01T00:00:00" _ "no2" (by decide) (by decide)

/-- Counterexample to C4: with all six fields present and pm25 bound to a
value `float` cannot coerce, `predict_aqi` returns HTTP 500 with the
generic wrapper around the float() message (which describes the offending
value, not the field), not a 4xx validation error naming the field. -/
theorem coercion_failure_counterexample :
    predict_aqi (some demoModel) (some demoEncoder) (some demoFeatureNames)
      "t" [("pm25", .nonNumeric "could not convert string to float: abc"),
        ("pm10", .num 1), ("no2", .num 1), ("so2", .num 1), ("co", .num 1),
        ("o3", .num 1)] =
      .err "Prediction failed: could not convert string to float: abc"
        500 := by
  decide

/-- C4 amended: when all six keys are present but a value is not
numeric-coercible, `predict_aqi` returns HTTP 500 (not 4xx) whose body is
`Prediction failed:` followed by the coercion error of the first offending
field in source order; that error is the float() message about the value
and does not name the field.  Second conjunct: a non-coercible pm25 value
is exactly what makes the coercion step fail with its message. -/
theorem coercion_failure_500 :
    (∀ (m : MLModel) (e : LabelEncoder) (fns : List String) (now : String)
       (data : List (String × PyVal)) (emsg : String),
       fns.isEmpty = false → findMissing data = none →
       coercePollutants data = .error emsg →
       predict_aqi (some m) (some e) (some fns) now data =
         .err ("Prediction failed: " ++ emsg) 500) ∧
    (∀ (data : List (String × PyVal)) (emsg : String),
       data.lookup "pm25" = some (.nonNumeric emsg) →
       coercePollutants data = .error emsg) := by
  constructor
  · intro m e fns now data emsg hfns hfm hcp
    simp [predict_aqi, hfns, hfm, hcp]
  · intro data emsg h
    simp [coercePollutants, coerce1, h]

/-- Witness for C4 (amended) at the concrete input of the counterexample. -/
theorem coercion_failure_500_witness :
    predict_aqi (some demoModel) (some demoEncoder) (some demoFeatureNames)
      "t" [("pm25", .nonNumeric "could not convert string to float: xyz"),
        ("pm10", .num 2), ("no2", .num 3), ("so2", .num 4), ("co", .num 5),
        ("o3", .num 6)] =
      .err ("Prediction failed: " ++
        "could not convert string to float: xyz") 500 :=
  coercion_failure_500.1 demoModel demoEncoder demoFeatureNames "t" _
    "could not convert string to float: xyz" (by decide) (by decide)
    (by rfl)

/-- C3 amended: when an artifact failed to load, the direct /predict path
fails fast with HTTP 500 `ML models not loaded properly`; the live-fusion
path does NOT fail fast: `predict_aqi_internal` attempts inference, catches
the resulting failure, and `get_live_aqi` returns the caught internal error
merged with the provider components at HTTP status 200. -/
theorem model_unavailable_paths :
    (∀ (m? : Option MLModel) (e? : Option LabelEncoder)
       (f? : Option (List String)) (now : String)
       (data : List (String × PyVal)),
       modelsUnavailable m? e? f? = true →
       predict_aqi m? e? f? now data =
         .err "ML models not loaded properly" 500) ∧
    (∀ (k : Option String) (e? : Option LabelEncoder) (now : String)
       (comps : List (String × ℚ)),
       apiKeyFalsy k = false →
       get_live_aqi k none e? now ⟨200, some comps⟩ =
         .merged (.errDict ("Internal prediction failed: " ++
           noneAttrPredict)) comps ∧
       liveStatus (get_live_aqi k none e? now ⟨200, some comps⟩) = 200) := by
  constructor
  · intro m? e? f? now data h
    rcases m? with _ | m
    · rfl
    rcases e? with _ | e
    · rfl
    rcases f? with _ | f
    · rfl
    simp only [modelsUnavailable] at h
    simp [predict_aqi, h]
  · intro k e? now comps hk
    have hb := coercePollutants_build comps
    refine ⟨?_, ?_⟩ <;>
      simp [get_live_aqi, hk, predict_aqi_internal, hb, liveStatus]

/-- Counterexample to C3: with no artifact loaded but the upstream fetch
succeeding, the live endpoint responds with HTTP 200 carrying the caught
internal error merged with the components — classification was attempted
and nothing fails fast with a 5xx. -/
theorem model_unavailable_live_counterexample :
    liveStatus (get_live_aqi (some "k") none none "t"
      ⟨200, some [("pm2_5", 10)]⟩) = 200 ∧
    get_live_aqi (some "k") none none "t" ⟨200, some [("pm2_5", 10)]⟩ =
      .merged (.errDict ("Internal prediction failed: " ++ noneAttrPredict))
        [("pm2_5", 10)] := by
  decide

/-- Witness for C3 (amended) at a concrete unavailable configuration: the
direct path fails fast with 500 and the live path responds 200 with the
merged internal error. -/
theorem model_unavailable_paths_witness :
    predict_aqi none none none "t" [] =
      .err "ML models not loaded properly" 500 ∧
    get_live_aqi (some "secret") none (some demoEncoder) "t"
      ⟨200, some [("pm2_5", 5), ("o3", 2)]⟩ =
      .merged (.errDict ("Internal prediction failed: " ++ noneAttrPredict))
        [("pm2_5", 5), ("o3", 2)] :=
  ⟨model_unavailable_paths.1 none none none "t" [] (by decide),
   (model_unavailable_paths.2 (some "secret") (some demoEncoder) "t"
     [("pm2_5", 5), ("o3", 2)] (by decide)).1⟩

/-- C7: for every provider components payload, the live-fusion mapping
sends the provider pm2_5 onto canonical pm25 and the other five fields 1:1
by name, and a provider field missing from the payload becomes the
canonical value 0 rather than failing: the canonical vector handed to the
classification step is exactly the six looked-up-or-0 values in canonical
order; when the key and upstream checks pass, `get_live_aqi` forwards
exactly this mapped data to `predict_aqi_internal`. -/
theorem live_field_mapping :
    (∀ comps : List (String × ℚ),
       coercePollutants (buildPredictionData comps) =
         .ok [(comps.lookup "pm2_5").getD 0, (comps.lookup "pm10").getD 0,
              (comps.lookup "no2").getD 0, (comps.lookup "so2").getD 0,
              (comps.lookup "co").getD 0, (comps.lookup "o3").getD 0]) ∧
    (∀ (k : Option String) (m? : Option MLModel) (e? : Option LabelEncoder)
       (now : String) (comps : List (String × ℚ)),
       apiKeyFalsy k = false →
       get_live_aqi k m? e? now ⟨200, some comps⟩ =
         .merged (predict_aqi_internal m? e? now
           (buildPredictionData comps)) comps) := by
  constructor
  · exact coercePollutants_build
  · intro k m? e? now comps hk
    simp [get_live_aqi, hk]

/-- Witness for C7: the spec example payload without a co key yields the
canonical vector with co = 0, and at a concrete key the live route
forwards the mapped data. -/
theorem live_field_mapping_witness :
    coercePollutants (buildPredictionData
      [("pm2_5", 10), ("pm10", 20), ("no2", 5), ("so2", 1), ("o3", 15)]) =
      .ok [10, 20, 5, 1, 0, 15] ∧
    get_live_aqi (some "w") (some demoModel) (some demoEncoder) "t"
      ⟨200, some [("pm2_5", 10)]⟩ =
      .merged (predict_aqi_internal (some demoModel) (some demoEncoder) "t"
        (buildPredictionData [("pm2_5", 10)])) [("pm2_5", 10)] := by
  constructor
  · rw [live_field_mapping.1 [("pm2_5", 10), ("pm10", 20), ("no2", 5),
      ("so2", 1), ("o3", 15)]]
    rfl
  · exact live_field_mapping.2 (some "w") (some demoModel)
      (some demoEncoder) "t" [("pm2_5", 10)] (by decide)

/-- C8: a non-200 provider status makes `get_live_aqi` fail with the 500
upstream error, and no classification is attempted (the result is the same
for every model, encoder and body); a missing or empty API key fails with
the 500 key error for every provider response, i.e. before any network
call matters. -/
theorem upstream_failure :
    (∀ (k : Option String) (m? : Option MLModel) (e? : Option LabelEncoder)
       (now : String) (resp : ProviderResponse),
       apiKeyFalsy k = false → resp.status_code ≠ 200 →
       get_live_aqi k m? e? now resp =
         .err "Failed to fetch live data" 500) ∧
    (∀ (k : Option String) (m? : Option MLModel) (e? : Option LabelEncoder)
       (now : String) (resp : ProviderResponse),
       apiKeyFalsy k = true →
       get_live_aqi k m? e? now resp =
         .err "OpenWeatherMap API key missing" 500) := by
  constructor
  · intro k m? e? now resp hk hs
    simp [get_live_aqi, hk, hs]
  · intro k m? e? now resp hk
    simp [get_live_aqi, hk]

/-- Witness for C8: provider status 503 yields the upstream fetch error,
and a missing key yields the key error. -/
theorem upstream_failure_witness :
    get_live_aqi (some "w") (some demoModel) (some demoEncoder) "t"
      ⟨503, some [("pm2_5", 10)]⟩ = .err "Failed to fetch live data" 500 ∧
    get_live_aqi none (some demoModel) (some demoEncoder) "t"
      ⟨200, some [("pm2_5", 10)]⟩ =
      .err "OpenWeatherMap API key missing" 500 :=
  ⟨upstream_failure.1 (some "w") (some demoModel) (some demoEncoder) "t"
     ⟨503, some [("pm2_5", 10)]⟩ (by decide) (by decide),
   upstream_failure.2 none (some demoModel) (some demoEncoder) "t"
     ⟨200, some [("pm2_5", 10)]⟩ (by decide)⟩

/-- C9: `predict_aqi` is deterministic up to timestamp: two calls with the
identical input differ at most in the timestamp field, so label, numeric
value and confidence are identical. -/
theorem predict_deterministic (m? : Option MLModel)
    (e? : Option LabelEncoder) (f? : Option (List String))
    (t1 t2 : String) (data : List (String × PyVal)) :
    eraseTs (predict_aqi m? e? f? t1 data) =
      eraseTs (predict_aqi m? e? f? t2 data) := by
  rcases m? with _ | m
  · rfl
  rcases e? with _ | e
  · rfl
  rcases f? with _ | f
  · rfl
  simp only [predict_aqi]
  by_cases hfe : f.isEmpty = true
  · simp [hfe]
  · rw [if_neg hfe, if_neg hfe]
    cases hfm : findMissing data with
    | some fld => rfl
    | none =>
      dsimp only
      cases hcp : coercePollutants data with
      | error msg => rfl
      | ok ps =>
        dsimp only
        cases hw : predict_proba_wrapped m ps with
        | error msg => rfl
        | ok probs =>
          dsimp only
          cases hmx : maxQ probs with
          | none => rfl
          | some mx => simp [eraseTs, mkResponse]

/-- C10: the internal prediction helper never raises — every call returns
either the success dict or a dict with an error key — and when the
provider fetch and parse succeed but classification fails, the live
endpoint still responds with HTTP 200 whose body is that error dict merged
with the raw provider components, not a 5xx response. -/
theorem internal_error_merged :
    (∀ (m? : Option MLModel) (e? : Option LabelEncoder) (now : String)
       (data : List (String × PyVal)),
       (∃ r, predict_aqi_internal m? e? now data = .ok r) ∨
       (∃ msg, predict_aqi_internal m? e? now data = .errDict msg)) ∧
    (∀ (k : Option String) (m? : Option MLModel) (e? : Option LabelEncoder)
       (now : String) (comps : List (String × ℚ)) (msg : String),
       apiKeyFalsy k = false →
       predict_aqi_internal m? e? now (buildPredictionData comps) =
         .errDict msg →
       get_live_aqi k m? e? now ⟨200, some comps⟩ =
         .merged (.errDict msg) comps ∧
       liveStatus (get_live_aqi k m? e? now ⟨200, some comps⟩) = 200) := by
  constructor
  · intro m? e? now data
    cases h : predict_aqi_internal m? e? now data with
    | ok r => exact .inl ⟨r, rfl⟩
    | errDict msg => exact .inr ⟨msg, rfl⟩
  · intro k m? e? now comps msg hk hint
    constructor <;> simp [get_live_aqi, hk, hint, liveStatus]

/-- Witness for C10: with the model artifact missing, the live route at a
concrete successful upstream response answers 200 with the caught internal
error merged with the components. -/
theorem internal_error_merged_witness :
    get_live_aqi (some "key") none (some demoEncoder) "t"
      ⟨200, some [("pm2_5", 7)]⟩ =
      .merged (.errDict ("Internal prediction failed: " ++ noneAttrPredict))
        [("pm2_5", 7)] ∧
    liveStatus (get_live_aqi (some "key") none (some demoEncoder) "t"
      ⟨200, some [("pm2_5", 7)]⟩) = 200 :=
  internal_error_merged.2 (some "key") none (some demoEncoder) "t"
    [("pm2_5", 7)] ("Internal prediction failed: " ++ noneAttrPredict)
    (by decide) (by rfl)

/-- C1 (code bug at line 129 of flask_app.py): for every valid six-field
numeric pollutant vector reaching the loaded artifacts, the confidence
expression re-wraps the already 2-D feature batch
(`model.predict_proba([features])`), scikit-learn rejects the 3-D input
with a ValueError, and /predict returns HTTP 500 `Prediction failed:`
instead of the specified confidence — for every model and every valid
input.  The probability vector computed correctly at line 123 is never
used, which shows the claimed behaviour is the intent and the re-wrap a
slip. -/
theorem predict_dim3_failure (m : MLModel) (e : LabelEncoder)
    (fns : List String) (now : String) (data : List (String × PyVal))
    (v1 v2 v3 v4 v5 v6 : ℚ)
    (hfns : fns.isEmpty = false)
    (h1 : data.lookup "pm25" = some (.num v1))
    (h2 : data.lookup "pm10" = some (.num v2))
    (h3 : data.lookup "no2" = some (.num v3))
    (h4 : data.lookup "so2" = some (.num v4))
    (h5 : data.lookup "co" = some (.num v5))
    (h6 : data.lookup "o3" = some (.num v6)) :
    predict_aqi (some m) (some e) (some fns) now data =
      .err ("Prediction failed: " ++ dim3Msg) 500 := by
  have hfm : findMissing data = none := by
    simp [findMissing, required_fields, List.find?, h1, h2, h3, h4, h5, h6]
  have hcp : coercePollutants data = .ok [v1, v2, v3, v4, v5, v6] := by
    simp [coercePollutants, coerce1, h1, h2, h3, h4, h5, h6]
  simp [predict_aqi, hfns, hfm, hcp, predict_proba_wrapped]

/-- Witness for C1 at a concrete valid vector: /predict answers 500 with
the wrapped dim-3 ValueError, not a confidence. -/
theorem predict_dim3_failure_witness :
    predict_aqi (some demoModel) (some demoEncoder) (some demoFeatureNames)
      "2025-01-01T00:00:00"
      [("pm25", .num 12), ("pm10", .num 30), ("no2", .num 8),
       ("so2", .num 2), ("co", .num 1), ("o3", .num 20)] =
      .err ("Prediction failed: " ++ dim3Msg) 500 :=
  predict_dim3_failure demoModel demoEncoder demoFeatureNames
    "2025-01-01T00:00:00" _ 12 30 8 2 1 20 (by decide) (by rfl) (by rfl)
    (by rfl) (by rfl) (by rfl) (by rfl)

end BreatheAware
